import Mathlib

/-!
Verification of the rank-normalization core of LOLRanksSummary.

The repository has two encode implementations:
  - `get_total_lp` in src/utils/rank_calculator.py, together with
    `format_rank_diff` and `calculate_diff_text` (the snapshot comparator);
  - `rank_to_numeric` / `numeric_to_rank` in src/utils/graph_generator.py.

Conventions of the shallow embedding:
  - Python `str.upper()` on the ASCII tier/division names is modelled as a
    character-wise map with `Char.toUpper` (`str_upper`).
  - Python integers are `Int`.  Python floor division `//` and modulo `%`
    by the positive literals 400/100 coincide with Lean's Euclidean `/`
    and `%` on `Int`, which are used directly.
  - The float expression `int((w / g) * 100)` is modelled exactly, by IEEE-754
    binary64 semantics over exact integer arithmetic: CPython's `int / int`
    returns the correctly rounded (nearest, ties-to-even) double of the true
    quotient, raising OverflowError when the magnitude exceeds the largest
    finite double; `float * 100` multiplies by the exactly representable
    100.0 and rounds the exact product the same way, overflowing to infinity,
    on which `int()` raises; `int()` of a finite float truncates toward zero.
    A double is carried as a mantissa/exponent pair `(m, e)` with value
    `m * 2 ^ e`, `|m| < 2 ^ 53`, subnormals reached by clamping the exponent
    at -1074 (see `roundRat`); `none` stands for the raised exception.
  - Python dicts with a fixed key set are structures; `dict.get(k, 0)` on a
    possibly-missing key is `Option.getD`; dict lookup tables are
    association lists queried with `List.lookup`.
  - An expression whose Python evaluation can raise (`tier[0]` on an empty
    string) is modelled with `Option`, `none` standing for the exception.
-/

namespace LOLRanks

/-- Python `str.upper()` restricted to the ASCII strings this program uses. -/
def str_upper (s : String) : String := String.mk (s.data.map Char.toUpper)

/-! ## src/utils/rank_calculator.py -/

/-- The `TIER_ORDER` dict of rank_calculator.py (tier name → ordinal). -/
def TIER_ORDER_RC : List (String × Int) :=
  [("IRON", 0), ("BRONZE", 1), ("SILVER", 2), ("GOLD", 3), ("PLATINUM", 4),
   ("EMERALD", 5), ("DIAMOND", 6), ("MASTER", 7), ("GRANDMASTER", 8),
   ("CHALLENGER", 9)]

/-- The `RANK_ORDER` dict (division → ordinal weight). -/
def RANK_ORDER : List (String × Int) :=
  [("IV", 0), ("III", 1), ("II", 2), ("I", 3)]

/-- The `TIER_BASE_LP` dict.  Note that MASTER, GRANDMASTER and CHALLENGER
all share the base 2800, per the source comment "GM and Challenger share the
same base as Master". -/
def TIER_BASE_LP : List (String × Int) :=
  [("IRON", 0), ("BRONZE", 400), ("SILVER", 800), ("GOLD", 1200),
   ("PLATINUM", 1600), ("EMERALD", 2000), ("DIAMOND", 2400),
   ("MASTER", 2800), ("GRANDMASTER", 2800), ("CHALLENGER", 2800)]

/-- Body of `get_total_lp` after the `tier_upper = tier.upper()` line; the
first argument is the already-uppercased tier name. -/
def get_total_lp_u (tier_upper rank : String) (lp : Int) : Int :=
  match TIER_BASE_LP.lookup tier_upper with
  | none => 0
  | some base =>
    if tier_upper ∈ (["MASTER", "GRANDMASTER", "CHALLENGER"] : List String) then
      base + lp
    else
      base + (RANK_ORDER.lookup (str_upper rank)).getD 0 * 100 + lp

/-- `get_total_lp(tier, rank, lp)` of rank_calculator.py. -/
def get_total_lp (tier rank : String) (lp : Int) : Int :=
  get_total_lp_u (str_upper tier) rank lp

/-- `format_rank_diff(diff)`: "+NLP" / "-NLP" / "±0LP". -/
def format_rank_diff (diff : Int) : String :=
  if diff > 0 then "+" ++ toString diff ++ "LP"
  else if diff < 0 then toString diff ++ "LP"
  else "±0LP"

/-- The `mapping` dict of `shorten_tier`. -/
def SHORTEN_MAP : List (String × String) :=
  [("IRON", "I"), ("BRONZE", "B"), ("SILVER", "S"), ("GOLD", "G"),
   ("PLATINUM", "P"), ("EMERALD", "E"), ("DIAMOND", "D"), ("MASTER", "M"),
   ("GRANDMASTER", "GM"), ("CHALLENGER", "C")]

/-- `shorten_tier(tier)`.  Python evaluates the default argument `tier[0]`
before the `dict.get` call, so an empty tier name raises IndexError no matter
what; that exception is the `none` case. -/
def shorten_tier (tier : String) : Option String :=
  match tier.data.head? with
  | none => none
  | some c => some ((SHORTEN_MAP.lookup (str_upper tier)).getD (String.mk [c]))

/-- One stored rank snapshot as consumed by `calculate_diff_text`: a dict
with required keys 'tier', 'rank', 'lp' and optional 'wins'/'losses'. -/
structure Snapshot where
  tier : String
  rank : String
  lp : Int
  wins : Option Int
  losses : Option Int

/-- Round `n / d` (both positive) to the nearest integer, ties to even —
the rounding mode of every IEEE-754 operation involved here. -/
def rnePos (n d : ℕ) : ℕ :=
  let q := n / d
  let r := n % d
  if 2 * r < d then q
  else if 2 * r > d then q + 1
  else if q % 2 = 0 then q else q + 1

/-- Fuel-driven `⌊log₂ n⌋` (structural recursion so the kernel can
evaluate it; the fuel `n` always suffices since the argument halves). -/
def log2fuel : ℕ → ℕ → ℕ
  | 0, _ => 0
  | f + 1, n => if 2 ≤ n then log2fuel f (n / 2) + 1 else 0

def nlog2 (n : ℕ) : ℕ := log2fuel n n

/-- `⌊log₂ (n / d)⌋` for positive `n`, `d`: the candidate
`⌊log₂ n⌋ - ⌊log₂ d⌋` is exact or one too large, settled by comparing
`n / d` with `2 ^ k`. -/
def flog2 (n d : ℕ) : Int :=
  let k : Int := (nlog2 n : Int) - (nlog2 d : Int)
  if 0 ≤ k then (if d * 2 ^ k.toNat ≤ n then k else k - 1)
  else (if d ≤ n * 2 ^ (-k).toNat then k else k - 1)

/-- Round `n / d / 2 ^ e` to the nearest integer, ties to even. -/
def scaledMantissa (n d : ℕ) (e : Int) : ℕ :=
  if 0 ≤ e then rnePos n (d * 2 ^ e.toNat) else rnePos (n * 2 ^ (-e).toNat) d

/-- Round the positive rational `n / d` to the nearest binary64 value
(ties to even), as a mantissa/exponent pair with value `m * 2 ^ e`:
the exponent is chosen so the scaled value lies in `[2 ^ 52, 2 ^ 53)`,
clamped at `-1074` (subnormal range, where rounding can yield `m = 0`);
a round-up to `2 ^ 53` carries into the next binade; a result beyond the
largest finite double (`e > 971` after the carry) is `none`. -/
def roundPos (n d : ℕ) : Option (ℕ × Int) :=
  let e0 := flog2 n d
  let e1 := max (e0 - 52) (-1074)
  let m1 := scaledMantissa n d e1
  let m := if m1 = 2 ^ 53 then 2 ^ 52 else m1
  let e := if m1 = 2 ^ 53 then e1 + 1 else e1
  if 971 < e then none else some (m, e)

/-- Round the rational `num / den` (`den > 0`) to the nearest binary64
value; rounding is symmetric in the sign. -/
def roundRat (num : Int) (den : ℕ) : Option (Int × Int) :=
  if num = 0 then some (0, 0)
  else if 0 < num then (roundPos num.toNat den).map (fun p => ((p.1 : Int), p.2))
  else (roundPos (-num).toNat den).map (fun p => (-(p.1 : Int), p.2))

/-- `m * 2 ^ e` as a numerator/denominator pair. -/
def fracOfScaled (m : Int) (e : Int) : Int × ℕ :=
  if 0 ≤ e then (m * 2 ^ e.toNat, 1) else (m, 2 ^ (-e).toNat)

/-- Python `int()` on the finite double `m * 2 ^ e`: truncation toward
zero. -/
def truncScaled (m : Int) (e : Int) : Int :=
  if 0 ≤ e then m * 2 ^ e.toNat else Int.tdiv m (2 ^ (-e).toNat)

/-- The `rate = int((w / g) * 100)` line of `calculate_diff_text`, by exact
IEEE-754 binary64 semantics: `w / g` is CPython's correctly rounded true
division of integers (`ZeroDivisionError`/`OverflowError` as `none`); the
result is multiplied by the exact double 100.0 and rounded again (overflow
to infinity makes the subsequent `int()` raise, also `none`); `int()`
truncates the finite product toward zero.  Reproduces e.g.
`int((29 / 100) * 100) = 28` and `int((-1 / 3) * 100) = -33`. -/
def win_rate (w g : Int) : Option Int :=
  if g = 0 then none
  else
    let num := if 0 ≤ g then w else -w
    let den := g.natAbs
    match roundRat num den with
    | none => none
    | some (m, e) =>
      let p := fracOfScaled (m * 100) e
      match roundRat p.1 p.2 with
      | none => none
      | some (m2, e2) => some (truncScaled m2 e2)

/-- `calculate_diff_text(old_data, new_data, include_prefix)`.  `none` in an
input position models a falsy (absent/empty) snapshot dict; `none` as result
models an uncaught exception (only reachable through `shorten_tier` on an
empty tier name).  The source returns `content` whether `include_prefix` is
set or not, which is mirrored by the final `if`. -/
def calculate_diff_text (old_data new_data : Option Snapshot)
    ( include_prefix : Bool) : Option String :=
  match old_data, new_data with
  | some o, some n =>
    let old_total := get_total_lp o.tier o.rank o.lp
    let new_total := get_total_lp n.tier n.rank n.lp
    let diff := new_total - old_total
    match shorten_tier o.tier, shorten_tier n.tier with
    | some so, some sn =>
      let old_str0 := so ++ o.rank
      let new_str0 := sn ++ n.rank
      let old_str :=
        if o.tier ∈ (["MASTER", "GRANDMASTER", "CHALLENGER"] : List String)
        then so else old_str0
      let new_str :=
        if n.tier ∈ (["MASTER", "GRANDMASTER", "CHALLENGER"] : List String)
        then sn else new_str0
      let lp_diff_str := format_rank_diff diff
      let content0 :=
        if old_str = new_str then "Tier:変化なし LP:" ++ lp_diff_str
        else "Tier " ++ old_str ++ " → " ++ new_str ++ " LP: " ++ lp_diff_str
      let w := n.wins.getD 0 - o.wins.getD 0
      let l := n.losses.getD 0 - o.losses.getD 0
      let g := w + l
      let content? :=
        if g > 0 then
          match win_rate w g with
          | none => none
          | some rate =>
            some (content0 ++ (" (" ++ toString w ++ "勝" ++ toString l ++
              "敗 " ++ toString rate ++ "%)"))
        else some content0
      match content? with
      | none => none
      | some content =>
        if include_prefix = false then some content else some content
    | _, _ => none
  | _, _ => some "-"

/-! ## src/utils/graph_generator.py -/

/-- The `TIER_ORDER` list of graph_generator.py. -/
def TIER_ORDER : List String :=
  ["IRON", "BRONZE", "SILVER", "GOLD", "PLATINUM",
   "EMERALD", "DIAMOND", "MASTER", "GRANDMASTER", "CHALLENGER"]

/-- The `APEX_TIERS` set. -/
def APEX_TIERS : List String := ["MASTER", "GRANDMASTER", "CHALLENGER"]

/-- The `DIV_MAP` dict. -/
def DIV_MAP : List (String × Int) :=
  [("I", 3), ("II", 2), ("III", 1), ("IV", 0)]

/-- Body of `rank_to_numeric` after the `tier = tier.upper()` line. -/
def rank_to_numeric_u (tier division : String) (lp : Int) : Int :=
  if tier ∈ TIER_ORDER then
    let tier_val : Int := (List.indexOf tier TIER_ORDER : Int) * 400
    if tier ∈ APEX_TIERS then
      tier_val + lp
    else
      tier_val + (DIV_MAP.lookup division).getD 0 * 100 + lp
  else 0

/-- `rank_to_numeric(tier, division, lp)` of graph_generator.py.  Note the
division string is looked up as given, without uppercasing. -/
def rank_to_numeric (tier division : String) (lp : Int) : Int :=
  rank_to_numeric_u (str_upper tier) division lp

/-- Python list indexing `xs[i]` with an `Int` index: negative indices count
from the end; an out-of-range index (IndexError) is `none`. -/
def pyIndex (xs : List String) (i : Int) : Option String :=
  if 0 ≤ i then xs.get? i.toNat
  else if 0 ≤ i + (xs.length : Int) then xs.get? (i + (xs.length : Int)).toNat
  else none

/-- The `div_names` list inside `numeric_to_rank`. -/
def div_names : List String := ["IV", "III", "II", "I"]

/-- `numeric_to_rank(val)`.  Python `//` and `%` by the positive constants
400 and 100 are Euclidean `/` and `%`.  `none` models an IndexError (only
reachable for sufficiently negative `val`). -/
def numeric_to_rank (val : Int) : Option String :=
  let tier_idx0 := val / 400
  let tier_idx :=
    if (TIER_ORDER.length : Int) ≤ tier_idx0 then (TIER_ORDER.length : Int) - 1
    else tier_idx0
  match pyIndex TIER_ORDER tier_idx with
  | none => none
  | some tier =>
    let tier_offset := val % 400
    if tier ∈ APEX_TIERS then
      if tier_offset = 0 then some tier
      else some ("+" ++ toString tier_offset ++ "LP")
    else
      let div_idx := tier_offset / 100
      if div_idx < 4 then
        match pyIndex div_names div_idx with
        | none => none
        | some d => some (tier ++ " " ++ d)
      else some (tier ++ " " ++ "I")

/-! ## Derived notions used to state the claims -/

/-- The seven non-apex tiers, in ascending order. -/
def NONAPEX : List String :=
  ["IRON", "BRONZE", "SILVER", "GOLD", "PLATINUM", "EMERALD", "DIAMOND"]

/-- The four canonical division names. -/
def DIVS : List String := ["IV", "III", "II", "I"]

/-- Band index of a tier: its position in the canonical ten-tier ordering. -/
def bandIndex (t : String) : Int := (List.indexOf t TIER_ORDER : Int)

/-- Ordinal weight of a division per `{IV:0, III:1, II:2, I:3}`. -/
def divW (d : String) : Int := (DIV_MAP.lookup d).getD 0

/-- The tier one band above a non-apex tier. -/
def nextTier (t : String) : String :=
  (TIER_ORDER.get? (List.indexOf t TIER_ORDER + 1)).getD t

/-- The numeric delta of `calculate_diff_text`:
`encode(after) - encode(before)` through `get_total_lp`. -/
def points_delta (o n : Snapshot) : Int :=
  get_total_lp n.tier n.rank n.lp - get_total_lp o.tier o.rank o.lp

/-- Wins accumulated between two snapshots (`w` in the source). -/
def winsD (o n : Snapshot) : Int := n.wins.getD 0 - o.wins.getD 0

/-- Losses accumulated between two snapshots (`l` in the source). -/
def lossesD (o n : Snapshot) : Int := n.losses.getD 0 - o.losses.getD 0

/-- Games played between two snapshots (`g = w + l` in the source). -/
def games (o n : Snapshot) : Int := winsD o n + lossesD o n

/-- The win/loss fragment appended by `calculate_diff_text` when `g > 0`,
given the already-computed displayed rate. -/
def win_fragment (w l rate : Int) : String :=
  " (" ++ toString w ++ "勝" ++ toString l ++ "敗 " ++ toString rate ++ "%)"

/-- Everything `calculate_diff_text` produces for two present snapshots
before the win/loss fragment is considered. -/
def diff_content (o n : Snapshot) : Option String :=
  match shorten_tier o.tier, shorten_tier n.tier with
  | some so, some sn =>
    let old_str :=
      if o.tier ∈ (["MASTER", "GRANDMASTER", "CHALLENGER"] : List String)
      then so else so ++ o.rank
    let new_str :=
      if n.tier ∈ (["MASTER", "GRANDMASTER", "CHALLENGER"] : List String)
      then sn else sn ++ n.rank
    let lp_diff_str := format_rank_diff (points_delta o n)
    some (if old_str = new_str then "Tier:変化なし LP:" ++ lp_diff_str
          else "Tier " ++ old_str ++ " → " ++ new_str ++ " LP: " ++ lp_diff_str)
  | _, _ => none

/-! ## Evaluation helpers -/

lemma su_IRON : str_upper "IRON" = "IRON" := rfl

lemma su_BRONZE : str_upper "BRONZE" = "BRONZE" := rfl

lemma su_SILVER : str_upper "SILVER" = "SILVER" := rfl

lemma su_GOLD : str_upper "GOLD" = "GOLD" := rfl

lemma su_PLATINUM : str_upper "PLATINUM" = "PLATINUM" := rfl

lemma su_EMERALD : str_upper "EMERALD" = "EMERALD" := rfl

lemma su_DIAMOND : str_upper "DIAMOND" = "DIAMOND" := rfl

lemma su_MASTER : str_upper "MASTER" = "MASTER" := rfl

lemma su_GRANDMASTER : str_upper "GRANDMASTER" = "GRANDMASTER" := rfl

lemma su_CHALLENGER : str_upper "CHALLENGER" = "CHALLENGER" := rfl

lemma su_I : str_upper "I" = "I" := rfl

lemma su_II : str_upper "II" = "II" := rfl

lemma su_III : str_upper "III" = "III" := rfl

lemma su_IV : str_upper "IV" = "IV" := rfl

lemma idx_IRON : (List.indexOf "IRON" TIER_ORDER : Int) = 0 := by decide

lemma idx_BRONZE : (List.indexOf "BRONZE" TIER_ORDER : Int) = 1 := by decide

lemma idx_SILVER : (List.indexOf "SILVER" TIER_ORDER : Int) = 2 := by decide

lemma idx_GOLD : (List.indexOf "GOLD" TIER_ORDER : Int) = 3 := by decide

lemma idx_PLATINUM : (List.indexOf "PLATINUM" TIER_ORDER : Int) = 4 := by decide

lemma idx_EMERALD : (List.indexOf "EMERALD" TIER_ORDER : Int) = 5 := by decide

lemma idx_DIAMOND : (List.indexOf "DIAMOND" TIER_ORDER : Int) = 6 := by decide

lemma idx_MASTER : (List.indexOf "MASTER" TIER_ORDER : Int) = 7 := by decide

lemma idx_GRANDMASTER : (List.indexOf "GRANDMASTER" TIER_ORDER : Int) = 8 := by decide

lemma idx_CHALLENGER : (List.indexOf "CHALLENGER" TIER_ORDER : Int) = 9 := by decide

/-- On the seven non-apex tiers with a canonical division, both encoders
compute `400 * bandIndex + 100 * divisionWeight + points`. -/
lemma encode_nonapex_val (t : String) (ht : t ∈ NONAPEX) (d : String)
    (hd : d ∈ DIVS) (p : Int) :
    get_total_lp t d p = 400 * bandIndex t + 100 * divW d + p ∧
    rank_to_numeric t d p = 400 * bandIndex t + 100 * divW d + p := by
  simp only [NONAPEX] at ht
  simp only [DIVS] at hd
  fin_cases ht <;> fin_cases hd <;>
    refine ⟨?_, ?_⟩ <;>
      simp [get_total_lp, get_total_lp_u, rank_to_numeric, rank_to_numeric_u,
        TIER_BASE_LP, RANK_ORDER, TIER_ORDER, APEX_TIERS, DIV_MAP, List.lookup,
        bandIndex, divW,
        su_IRON, su_BRONZE, su_SILVER, su_GOLD, su_PLATINUM, su_EMERALD,
        su_DIAMOND, su_I, su_II, su_III, su_IV,
        idx_IRON, idx_BRONZE, idx_SILVER, idx_GOLD, idx_PLATINUM, idx_EMERALD,
        idx_DIAMOND]

/-- Apex values of the rank_calculator encoder: all three apex tiers sit on
the shared base 2800, whatever the division argument. -/
lemma get_total_lp_apex (d : String) (p : Int) :
    get_total_lp "MASTER" d p = 2800 + p ∧
    get_total_lp "GRANDMASTER" d p = 2800 + p ∧
    get_total_lp "CHALLENGER" d p = 2800 + p := by
  refine ⟨?_, ?_, ?_⟩ <;>
    simp [get_total_lp, get_total_lp_u, TIER_BASE_LP, List.lookup,
      su_MASTER, su_GRANDMASTER, su_CHALLENGER]

/-- Apex values of the graph_generator encoder: `bandIndex * 400 + lp`,
whatever the division argument. -/
lemma rank_to_numeric_apex (d : String) (p : Int) :
    rank_to_numeric "MASTER" d p = 2800 + p ∧
    rank_to_numeric "GRANDMASTER" d p = 3200 + p ∧
    rank_to_numeric "CHALLENGER" d p = 3600 + p := by
  refine ⟨?_, ?_, ?_⟩ <;>
    simp [rank_to_numeric, rank_to_numeric_u, TIER_ORDER, APEX_TIERS,
      su_MASTER, su_GRANDMASTER, su_CHALLENGER,
      idx_MASTER, idx_GRANDMASTER, idx_CHALLENGER]

/-- Band indices of non-apex tiers lie in `[0, 6]`. -/
lemma bandIndex_nonapex_bounds (t : String) (ht : t ∈ NONAPEX) :
    0 ≤ bandIndex t ∧ bandIndex t ≤ 6 := by
  simp only [NONAPEX] at ht
  fin_cases ht <;> refine ⟨by decide, by decide⟩

/-- Division weights of canonical divisions lie in `[0, 3]`. -/
lemma divW_bounds (d : String) (hd : d ∈ DIVS) : 0 ≤ divW d ∧ divW d ≤ 3 := by
  simp only [DIVS] at hd
  fin_cases hd <;> refine ⟨by decide, by decide⟩

lemma len_TIER : (TIER_ORDER.length : Int) = 10 := by decide

lemma pyIndex_TIER_nonapex (t : String) (ht : t ∈ NONAPEX) :
    pyIndex TIER_ORDER (bandIndex t) = some t := by
  simp only [NONAPEX] at ht
  fin_cases ht <;> decide

lemma pyIndex_div (d : String) (hd : d ∈ DIVS) :
    pyIndex div_names (divW d) = some d := by
  simp only [DIVS] at hd
  fin_cases hd <;> decide

lemma nonapex_not_apex (t : String) (ht : t ∈ NONAPEX) : t ∉ APEX_TIERS := by
  simp only [NONAPEX] at ht
  fin_cases ht <;> decide

/-- Decoding a value in a non-apex band with in-range division offset and
points recovers the tier and division labels. -/
lemma decode_nonapex (t d : String) (p : Int) (ht : t ∈ NONAPEX) (hd : d ∈ DIVS)
    (hp0 : 0 ≤ p) (hp1 : p < 100) :
    numeric_to_rank (400 * bandIndex t + 100 * divW d + p) =
      some (t ++ " " ++ d) := by
  obtain ⟨hb0, hb6⟩ := bandIndex_nonapex_bounds t ht
  obtain ⟨hw0, hw3⟩ := divW_bounds d hd
  have e1 : (400 * bandIndex t + 100 * divW d + p) / 400 = bandIndex t := by
    omega
  have e2 : ¬ ((10 : Int) ≤ bandIndex t) := by omega
  have e3 : (400 * bandIndex t + 100 * divW d + p) % 400 = 100 * divW d + p := by
    omega
  have e4 : (100 * divW d + p) / 100 = divW d := by omega
  have e5 : divW d < 4 := by omega
  simp [numeric_to_rank, len_TIER, e1, e2, e3, e4, e5,
    pyIndex_TIER_nonapex t ht, nonapex_not_apex t ht, pyIndex_div d hd]

/-- Decoding a value that sits `p < 400` points above the start of band `i`
of an apex tier: the bare tier name at the band start, `+NLP` otherwise. -/
lemma decode_band_small (i : Int) (T : String) (hi0 : 0 ≤ i) (hi9 : i ≤ 9)
    (hT : pyIndex TIER_ORDER i = some T) (hA : T ∈ APEX_TIERS)
    (p : Int) (h0 : 0 ≤ p) (h1 : p < 400) :
    numeric_to_rank (400 * i + p) =
      some (if p = 0 then T else "+" ++ toString p ++ "LP") := by
  have e1 : (400 * i + p) / 400 = i := by omega
  have e2 : ¬ ((10 : Int) ≤ i) := by omega
  have e3 : (400 * i + p) % 400 = p := by omega
  by_cases hp : p = 0
  · subst hp
    simp [numeric_to_rank, len_TIER, e1, e2, e3, hT, hA]
  · simp [numeric_to_rank, len_TIER, e1, e2, e3, hT, hA, hp]

/-- Decoding an apex encode with points inside one band width stays in the
tier's own band: the bare tier name at the band start, `+NLP` otherwise. -/
lemma decode_apex_small (T : String) (hT : T ∈ APEX_TIERS) (p : Int)
    (h0 : 0 ≤ p) (h1 : p < 400) :
    numeric_to_rank (400 * bandIndex T + p) =
      some (if p = 0 then T else "+" ++ toString p ++ "LP") := by
  simp only [APEX_TIERS] at hT
  fin_cases hT
  · rw [show bandIndex "MASTER" = 7 from by decide]
    exact decode_band_small 7 "MASTER" (by decide) (by decide) (by decide)
      (by decide) p h0 h1
  · rw [show bandIndex "GRANDMASTER" = 8 from by decide]
    exact decode_band_small 8 "GRANDMASTER" (by decide) (by decide) (by decide)
      (by decide) p h0 h1
  · rw [show bandIndex "CHALLENGER" = 9 from by decide]
    exact decode_band_small 9 "CHALLENGER" (by decide) (by decide) (by decide)
      (by decide) p h0 h1

/-- Decoding any Challenger encode, however large the points: the band index
is clamped to the last tier, so the label stays in the Challenger band. -/
lemma decode_challenger (p : Int) (h0 : 0 ≤ p) :
    numeric_to_rank (3600 + p) =
      some (if p % 400 = 0 then "CHALLENGER"
            else "+" ++ toString (p % 400) ++ "LP") := by
  have e3 : (3600 + p) % 400 = p % 400 := by omega
  have hT : pyIndex TIER_ORDER 9 = some "CHALLENGER" := by decide
  have hA : ("CHALLENGER" : String) ∈ APEX_TIERS := by decide
  by_cases hq : (10 : Int) ≤ (3600 + p) / 400
  · by_cases hp : p % 400 = 0 <;>
      norm_num [numeric_to_rank, len_TIER, hq, e3, hp, hT, hA]
  · have hq9 : (3600 + p) / 400 = 9 := by omega
    by_cases hp : p % 400 = 0 <;>
      norm_num [numeric_to_rank, len_TIER, hq, hq9, e3, hp, hT, hA]

/-- A name outside the ten-tier list has no entry in `TIER_BASE_LP` either
(the two tables share their key set). -/
lemma base_lookup_none (u : String) (hu : u ∉ TIER_ORDER) :
    TIER_BASE_LP.lookup u = none := by
  simp only [TIER_ORDER, List.mem_cons, List.not_mem_nil, or_false, not_or] at hu
  obtain ⟨n1, n2, n3, n4, n5, n6, n7, n8, n9, n10⟩ := hu
  simp [TIER_BASE_LP, List.lookup,
    beq_eq_false_iff_ne.mpr n1, beq_eq_false_iff_ne.mpr n2,
    beq_eq_false_iff_ne.mpr n3, beq_eq_false_iff_ne.mpr n4,
    beq_eq_false_iff_ne.mpr n5, beq_eq_false_iff_ne.mpr n6,
    beq_eq_false_iff_ne.mpr n7, beq_eq_false_iff_ne.mpr n8,
    beq_eq_false_iff_ne.mpr n9, beq_eq_false_iff_ne.mpr n10]

/-- The two encoder bodies agree on every already-uppercased tier name other
than GRANDMASTER and CHALLENGER, for canonical division strings. -/
lemma encoders_u_agree (u d : String) (lp : Int) (hd : d ∈ DIVS)
    (h1 : u ≠ "GRANDMASTER") (h2 : u ≠ "CHALLENGER") :
    get_total_lp_u u d lp = rank_to_numeric_u u d lp := by
  by_cases hu : u ∈ TIER_ORDER
  · simp only [TIER_ORDER, List.mem_cons, List.not_mem_nil, or_false] at hu
    simp only [DIVS] at hd
    rcases hu with rfl | rfl | rfl | rfl | rfl | rfl | rfl | rfl | rfl | rfl <;>
      first
      | exact absurd rfl h1
      | exact absurd rfl h2
      | fin_cases hd <;>
          simp [get_total_lp_u, rank_to_numeric_u, TIER_BASE_LP, RANK_ORDER,
            TIER_ORDER, APEX_TIERS, DIV_MAP, List.lookup,
            su_I, su_II, su_III, su_IV,
            idx_IRON, idx_BRONZE, idx_SILVER, idx_GOLD, idx_PLATINUM,
            idx_EMERALD, idx_DIAMOND, idx_MASTER]
  · have hb : TIER_BASE_LP.lookup u = none := base_lookup_none u hu
    simp [get_total_lp_u, rank_to_numeric_u, hb, hu]

/-- The tier one band above a non-apex tier starts at `400 * (bandIndex + 1)`
under both encoders (for DIAMOND the next tier is MASTER, whose shared apex
base 2800 still equals `400 * 7`). -/
lemma next_tier_base (t : String) (ht : t ∈ NONAPEX) :
    get_total_lp (nextTier t) "IV" 0 = 400 * (bandIndex t + 1) ∧
    rank_to_numeric (nextTier t) "IV" 0 = 400 * (bandIndex t + 1) := by
  simp only [NONAPEX] at ht
  fin_cases ht <;> exact ⟨by decide, by decide⟩

/-! ## Claims -/

/-- C1 counterexample: the claim says every apex encode is
`bandIndex * 400 + points`, but `get_total_lp` gives GRANDMASTER
(band index 8) the value `2800 + points`, not `8 * 400 + points = 3200`. -/
theorem get_total_lp_grandmaster_band_ne :
    get_total_lp "GRANDMASTER" "I" 0 ≠ 8 * 400 + 0 ∧
    get_total_lp "GRANDMASTER" "I" 0 = 2800 := by
  refine ⟨by decide, by decide⟩

/-- C1 (amended): for apex tiers, `rank_to_numeric` returns
`bandIndex * 400 + points` and ignores the division; `get_total_lp` does so
only for MASTER — GRANDMASTER and CHALLENGER get the shared base `2800 + points`
(still ignoring the division). -/
theorem apex_encode_values (d : String) (p : Int) :
    rank_to_numeric "MASTER" d p = 7 * 400 + p ∧
    rank_to_numeric "GRANDMASTER" d p = 8 * 400 + p ∧
    rank_to_numeric "CHALLENGER" d p = 9 * 400 + p ∧
    get_total_lp "MASTER" d p = 7 * 400 + p ∧
    get_total_lp "GRANDMASTER" d p = 2800 + p ∧
    get_total_lp "CHALLENGER" d p = 2800 + p := by
  obtain ⟨r1, r2, r3⟩ := rank_to_numeric_apex d p
  obtain ⟨g1, g2, g3⟩ := get_total_lp_apex d p
  refine ⟨by rw [r1]; ring, by rw [r2]; ring, by rw [r3]; ring,
    by rw [g1]; ring, g2, g3⟩

/-- C2 counterexample: the two encoders disagree at GRANDMASTER
(2800 versus 3200). -/
theorem encoders_disagree_on_grandmaster :
    get_total_lp "GRANDMASTER" "I" 0 = 2800 ∧
    rank_to_numeric "GRANDMASTER" "I" 0 = 3200 ∧
    get_total_lp "GRANDMASTER" "I" 0 ≠ rank_to_numeric "GRANDMASTER" "I" 0 := by
  refine ⟨by decide, by decide, by decide⟩

/-- C2 (amended): `get_total_lp` and `rank_to_numeric` agree for every tier
string whose uppercasing is not GRANDMASTER or CHALLENGER, whenever the
division string is one of the canonical uppercase `I`/`II`/`III`/`IV`. -/
theorem encoders_agree_below_grandmaster (t d : String) (lp : Int)
    (hd : d ∈ DIVS)
    (h1 : str_upper t ≠ "GRANDMASTER") (h2 : str_upper t ≠ "CHALLENGER") :
    get_total_lp t d lp = rank_to_numeric t d lp :=
  encoders_u_agree (str_upper t) d lp hd h1 h2

/-- Witness for C2's amended theorem at a concrete lowercase input. -/
theorem encoders_agree_witness :
    get_total_lp "gold" "II" 50 = rank_to_numeric "gold" "II" 50 :=
  encoders_agree_below_grandmaster "gold" "II" 50 (by decide) (by decide)
    (by decide)

/-- C3 counterexample: monotonicity "regardless of points" fails — GOLD IV
with 150 points outranks GOLD III with 0 points; MASTER with ordinary apex
points outranks GRANDMASTER in both encoders (in `get_total_lp` the two
tiers share a base, in `rank_to_numeric` because points are not clamped). -/
theorem monotonicity_fails_in_code :
    get_total_lp "GOLD" "III" 0 < get_total_lp "GOLD" "IV" 150 ∧
    get_total_lp "GRANDMASTER" "I" 0 < get_total_lp "MASTER" "I" 10 ∧
    rank_to_numeric "GRANDMASTER" "I" 0 < rank_to_numeric "MASTER" "I" 500 := by
  refine ⟨by decide, by decide, by decide⟩

/-- C3 (amended): restricted to the seven non-apex tiers, canonical divisions
and points in `[0, 100)`, both encoders are strictly monotonic in
(tier, division, points) lexicographic order, and every such value is below
`encode(nextTier, "IV", 0)`. -/
theorem nonapex_lex_monotonicity :
    (∀ (t1 t2 d1 d2 : String) (p1 p2 : Int),
      t1 ∈ NONAPEX → t2 ∈ NONAPEX → d1 ∈ DIVS → d2 ∈ DIVS →
      0 ≤ p1 → p1 < 100 → 0 ≤ p2 → p2 < 100 →
      (bandIndex t1 < bandIndex t2 ∨
        (t1 = t2 ∧ divW d1 < divW d2) ∨
        (t1 = t2 ∧ d1 = d2 ∧ p1 < p2)) →
      get_total_lp t1 d1 p1 < get_total_lp t2 d2 p2 ∧
      rank_to_numeric t1 d1 p1 < rank_to_numeric t2 d2 p2) ∧
    (∀ (t d : String) (p : Int), t ∈ NONAPEX → d ∈ DIVS → 0 ≤ p → p < 100 →
      get_total_lp t d p < get_total_lp (nextTier t) "IV" 0 ∧
      rank_to_numeric t d p < rank_to_numeric (nextTier t) "IV" 0) := by
  constructor
  · intro t1 t2 d1 d2 p1 p2 ht1 ht2 hd1 hd2 hp10 hp11 hp20 hp21 hlex
    obtain ⟨g1, r1⟩ := encode_nonapex_val t1 ht1 d1 hd1 p1
    obtain ⟨g2, r2⟩ := encode_nonapex_val t2 ht2 d2 hd2 p2
    obtain ⟨hw10, hw13⟩ := divW_bounds d1 hd1
    obtain ⟨hw20, hw23⟩ := divW_bounds d2 hd2
    have key : 400 * bandIndex t1 + 100 * divW d1 + p1 <
        400 * bandIndex t2 + 100 * divW d2 + p2 := by
      rcases hlex with h | ⟨ht, hw⟩ | ⟨ht, hdeq, hp⟩
      · omega
      · have hb : bandIndex t1 = bandIndex t2 := by rw [ht]
        omega
      · have hb : bandIndex t1 = bandIndex t2 := by rw [ht]
        have hw : divW d1 = divW d2 := by rw [hdeq]
        omega
    exact ⟨by rw [g1, g2]; exact key, by rw [r1, r2]; exact key⟩
  · intro t d p ht hd hp0 hp1
    obtain ⟨g, r⟩ := encode_nonapex_val t ht d hd p
    obtain ⟨hw0, hw3⟩ := divW_bounds d hd
    obtain ⟨gn, rn⟩ := next_tier_base t ht
    exact ⟨by rw [g, gn]; omega, by rw [r, rn]; omega⟩

/-- Witness for C3's amended theorem at concrete inputs. -/
theorem nonapex_lex_monotonicity_witness :
    get_total_lp "GOLD" "II" 50 < get_total_lp "GOLD" "I" 0 ∧
    rank_to_numeric "DIAMOND" "I" 99 < rank_to_numeric (nextTier "DIAMOND") "IV" 0 := by
  constructor
  · exact (nonapex_lex_monotonicity.1 "GOLD" "GOLD" "II" "I" 50 0 (by decide)
      (by decide) (by decide) (by decide) (by decide) (by decide) (by decide)
      (by decide) (Or.inr (Or.inl ⟨rfl, by decide⟩))).1
  · exact (nonapex_lex_monotonicity.2 "DIAMOND" "I" 99 (by decide) (by decide)
      (by decide) (by decide)).2

/-- C4 counterexample: decoding the MASTER encode at 400 points lands in the
GRANDMASTER band and is labelled with a different tier's name, so the apex
round trip does not hold for every `p ≥ 0`. -/
theorem roundtrip_fails_master_400 :
    numeric_to_rank (rank_to_numeric "MASTER" "I" 400) = some "GRANDMASTER" ∧
    ("GRANDMASTER" : String) ≠ "MASTER" := by
  refine ⟨by decide, by decide⟩

/-- C4 (amended): `decode ∘ encode` recovers `"TIER DIV"` exactly for
non-apex tiers with canonical division and points in `[0, 100)`; for an apex
tier with points inside one band width the label stays in the tier's band
(bare tier name at the band start, `+NLP` above it); for CHALLENGER any
`p ≥ 0` is clamped back into the CHALLENGER band — never a nonexistent
eleventh tier — with label `"CHALLENGER"` or `+NLP`; in particular
`encode("CHALLENGER", 1500)` decodes to `"+300LP"` in the Challenger band. -/
theorem roundtrip_decode_encode :
    (∀ (t d : String) (p : Int), t ∈ NONAPEX → d ∈ DIVS → 0 ≤ p → p < 100 →
      numeric_to_rank (rank_to_numeric t d p) = some (t ++ " " ++ d)) ∧
    (∀ (T : String) (p : Int), T ∈ APEX_TIERS → 0 ≤ p → p < 400 →
      numeric_to_rank (rank_to_numeric T "I" p) =
        some (if p = 0 then T else "+" ++ toString p ++ "LP")) ∧
    (∀ p : Int, 0 ≤ p →
      numeric_to_rank (rank_to_numeric "CHALLENGER" "I" p) =
        some (if p % 400 = 0 then "CHALLENGER"
              else "+" ++ toString (p % 400) ++ "LP")) ∧
    numeric_to_rank (rank_to_numeric "CHALLENGER" "I" 1500) = some "+300LP" := by
  refine ⟨?_, ?_, ?_, by decide⟩
  · intro t d p ht hd hp0 hp1
    obtain ⟨_, r⟩ := encode_nonapex_val t ht d hd p
    rw [r]
    exact decode_nonapex t d p ht hd hp0 hp1
  · intro T p hT h0 h1
    have h := decode_apex_small T hT p h0 h1
    simp only [APEX_TIERS] at hT
    fin_cases hT
    · rw [(rank_to_numeric_apex "I" p).1]
      rw [show (400 : Int) * bandIndex "MASTER" = 2800 from by decide] at h
      exact h
    · rw [(rank_to_numeric_apex "I" p).2.1]
      rw [show (400 : Int) * bandIndex "GRANDMASTER" = 3200 from by decide] at h
      exact h
    · rw [(rank_to_numeric_apex "I" p).2.2]
      rw [show (400 : Int) * bandIndex "CHALLENGER" = 3600 from by decide] at h
      exact h
  · intro p h0
    rw [(rank_to_numeric_apex "I" p).2.2]
    exact decode_challenger p h0

/-- Witness for C4's amended theorem at concrete inputs. -/
theorem roundtrip_decode_encode_witness :
    numeric_to_rank (rank_to_numeric "GOLD" "II" 50) = some "GOLD II" ∧
    numeric_to_rank (rank_to_numeric "MASTER" "I" 150) = some "+150LP" ∧
    numeric_to_rank (rank_to_numeric "CHALLENGER" "I" 1500) = some "+300LP" := by
  refine ⟨?_, ?_, roundtrip_decode_encode.2.2.2⟩
  · have h := roundtrip_decode_encode.1 "GOLD" "II" 50 (by decide) (by decide)
      (by decide) (by decide)
    simpa using h
  · have h := roundtrip_decode_encode.2.1 "MASTER" 150 (by decide) (by decide)
      (by decide)
    simpa using h

/-- C5: on every non-apex tier with a canonical division, both encoders
return `bandIndex * 400 + weight * 100 + points` for arbitrary (unclamped,
unvalidated) integer points; concretely GOLD II 50 ↦ 1450 and
GOLD I 0 ↦ 1500, the latter strictly greater. -/
theorem nonapex_encode_formula :
    (∀ (t d : String) (p : Int), t ∈ NONAPEX → d ∈ DIVS →
      get_total_lp t d p = 400 * bandIndex t + 100 * divW d + p ∧
      rank_to_numeric t d p = 400 * bandIndex t + 100 * divW d + p) ∧
    get_total_lp "GOLD" "II" 50 = 1450 ∧ get_total_lp "GOLD" "I" 0 = 1500 ∧
    rank_to_numeric "GOLD" "II" 50 = 1450 ∧
    rank_to_numeric "GOLD" "I" 0 = 1500 ∧ (1450 : Int) < 1500 := by
  exact ⟨fun t d p ht hd => encode_nonapex_val t ht d hd p,
    by decide, by decide, by decide, by decide, by decide⟩

/-- Witness for C5's theorem at a concrete input with out-of-nominal-range
points (no clamping). -/
theorem nonapex_encode_formula_witness :
    get_total_lp "SILVER" "III" 250 = 1150 ∧
    rank_to_numeric "SILVER" "III" 250 = 1150 := by
  have h := nonapex_encode_formula.1 "SILVER" "III" 250 (by decide) (by decide)
  exact ⟨by rw [h.1]; decide, by rw [h.2]; decide⟩

/-- C6: the comparator's delta is `encode(after) - encode(before)`: it is
positive exactly when the after-snapshot encodes strictly higher, negates
under swapping the inputs, and is zero for equal encoded ranks; the textual
formatting renders `+N`, `-N` (via the sign carried by `toString`), and the
neutral token `±0LP` for exactly zero. -/
theorem delta_sign_convention :
    (∀ d : Int, 0 < d → format_rank_diff d = "+" ++ toString d ++ "LP") ∧
    (∀ d : Int, d < 0 → format_rank_diff d = toString d ++ "LP") ∧
    format_rank_diff 0 = "±0LP" ∧
    (∀ o n : Snapshot, points_delta o n = - points_delta n o) ∧
    (∀ o n : Snapshot,
      get_total_lp o.tier o.rank o.lp < get_total_lp n.tier n.rank n.lp →
      0 < points_delta o n) ∧
    (∀ o n : Snapshot,
      get_total_lp o.tier o.rank o.lp = get_total_lp n.tier n.rank n.lp →
      points_delta o n = 0) := by
  refine ⟨?_, ?_, by decide, ?_, ?_, ?_⟩
  · intro d hd
    simp [format_rank_diff, hd]
  · intro d hd
    have h1 : ¬ (d > 0) := by omega
    simp [format_rank_diff, h1, hd]
  · intro o n
    simp only [points_delta]
    ring
  · intro o n h
    simp only [points_delta]
    omega
  · intro o n h
    simp only [points_delta, h, sub_self]

/-- Witness for C6's theorem at concrete inputs. -/
theorem delta_sign_convention_witness :
    format_rank_diff 110 = "+110LP" ∧ format_rank_diff (-51) = "-51LP" ∧
    0 < points_delta ⟨"SILVER", "III", 10, none, none⟩
        ⟨"SILVER", "II", 20, none, none⟩ := by
  refine ⟨(delta_sign_convention.1 110 (by decide)).trans (by decide),
    (delta_sign_convention.2.1 (-51) (by decide)).trans (by decide),
    delta_sign_convention.2.2.2.2.1 _ _ (by decide)⟩

/-- C7 counterexample: the displayed rate is not `floor(wins/games*100)`.
With a negative wins delta (counter reset) and `games = 3 > 0` the program
shows the toward-zero `-33` where the floor is `-34`; and even for positive
wins the double rounding inside `(29 / 100) * 100` makes the program show
`28` where the floor is `29`. -/
theorem win_rate_not_floor_of_code :
    calculate_diff_text (some ⟨"GOLD", "IV", 0, some 5, some 0⟩)
        (some ⟨"GOLD", "IV", 0, some 4, some 4⟩) true =
      some "Tier:変化なし LP:±0LP (-1勝4敗 -33%)" ∧
    Int.fdiv ((-1) * 100) 3 = -34 ∧
    win_rate 29 100 = some 28 ∧ Int.fdiv (29 * 100) 100 = 29 := by
  refine ⟨by decide, by decide, by decide, by decide⟩

/-- C7 (amended): the win-rate fragment is appended exactly when the games
delta is positive and the rate computation completes (which it does for all
realistically-sized counters); when the games delta is zero or negative the
fragment is omitted with no division and no error.  The displayed rate is
`int((wins / games) * 100)` under IEEE binary64 semantics — the toward-zero
truncation of the doubly rounded quotient — not `floor(wins*100/games)`;
the spec's own scenario-B rate `75` is reproduced exactly. -/
theorem win_rate_guard :
    (∀ (o n : Snapshot) (b : Bool), games o n ≤ 0 →
      calculate_diff_text (some o) (some n) b = diff_content o n) ∧
    (∀ (o n : Snapshot) (b : Bool) (r : Int), 0 < games o n →
      win_rate (winsD o n) (games o n) = some r →
      calculate_diff_text (some o) (some n) b =
        (diff_content o n).map
          (fun c => c ++ win_fragment (winsD o n) (lossesD o n) r)) ∧
    win_rate 3 4 = some 75 ∧ win_rate (-1) 3 = some (-33) := by
  refine ⟨?_, ?_, by decide, by decide⟩
  · intro o n b h
    have h' : ¬ (n.wins.getD 0 - o.wins.getD 0 +
        (n.losses.getD 0 - o.losses.getD 0) > 0) := by
      simp only [games, winsD, lossesD] at h
      omega
    cases ho : shorten_tier o.tier <;> cases hn : shorten_tier n.tier <;>
      simp [calculate_diff_text, diff_content, ho, hn, h', points_delta]
  · intro o n b r h hr
    have h' : n.wins.getD 0 - o.wins.getD 0 +
        (n.losses.getD 0 - o.losses.getD 0) > 0 := by
      simp only [games, winsD, lossesD] at h
      omega
    simp only [winsD, lossesD, games] at hr
    cases ho : shorten_tier o.tier <;> cases hn : shorten_tier n.tier <;>
      simp [calculate_diff_text, diff_content, ho, hn, h', hr, points_delta,
        win_fragment, winsD, lossesD, games]

/-- Witness for C7's amended theorem at concrete inputs (the second is the
spec's scenario B: 3 wins in 4 games, displayed rate 75). -/
theorem win_rate_guard_witness :
    calculate_diff_text (some ⟨"GOLD", "IV", 10, some 5, some 5⟩)
        (some ⟨"GOLD", "IV", 30, some 5, some 5⟩) true =
      diff_content ⟨"GOLD", "IV", 10, some 5, some 5⟩
        ⟨"GOLD", "IV", 30, some 5, some 5⟩ ∧
    calculate_diff_text (some ⟨"SILVER", "III", 10, some 5, some 5⟩)
        (some ⟨"SILVER", "II", 20, some 8, some 6⟩) true =
      (diff_content ⟨"SILVER", "III", 10, some 5, some 5⟩
          ⟨"SILVER", "II", 20, some 8, some 6⟩).map
        (fun c => c ++ win_fragment 3 1 75) := by
  refine ⟨win_rate_guard.1 _ _ true (by decide),
    win_rate_guard.2.1 _ _ true 75 (by decide) (by decide)⟩

/-- C8: both encoders are total Lean functions (they cannot raise), and any
tier name whose uppercasing falls outside the ten-tier canonical set maps to
the sentinel 0 under both, for every division string and every integer
points value. -/
theorem unknown_tier_encodes_zero (t d : String) (p : Int)
    (h : str_upper t ∉ TIER_ORDER) :
    get_total_lp t d p = 0 ∧ rank_to_numeric t d p = 0 := by
  have hb : TIER_BASE_LP.lookup (str_upper t) = none := base_lookup_none _ h
  constructor
  · simp [get_total_lp, get_total_lp_u, hb]
  · simp [rank_to_numeric, rank_to_numeric_u, h]

/-- Witness for C8's theorem: the spec's scenario D input `"UNRANKED"`. -/
theorem unknown_tier_encodes_zero_witness :
    get_total_lp "UNRANKED" "I" 7 = 0 ∧ rank_to_numeric "UNRANKED" "I" 7 = 0 :=
  unknown_tier_encodes_zero "UNRANKED" "I" 7 (by decide)

/-- C9 counterexample: with the flag false the comparator does not return
"just the trailing fragment": the output still starts with the leading
transition label and is identical to the flag-true output. -/
theorem flag_false_keeps_leading_label :
    calculate_diff_text (some ⟨"GOLD", "IV", 0, none, none⟩)
        (some ⟨"GOLD", "III", 0, none, none⟩) false =
      some "Tier GIV → GIII LP: +100LP" ∧
    calculate_diff_text (some ⟨"GOLD", "IV", 0, none, none⟩)
        (some ⟨"GOLD", "III", 0, none, none⟩) false =
      calculate_diff_text (some ⟨"GOLD", "IV", 0, none, none⟩)
        (some ⟨"GOLD", "III", 0, none, none⟩) true := by
  refine ⟨by decide, by decide⟩

/-- C9 (amended): the `include_prefix` flag does not change the comparator's
output at all — in the source both branches of the final `if` return the
same `content` — so in particular both calls expose identical deltas, games,
wins and rates, differing in no way at all. -/
theorem flag_has_no_effect (o n : Option Snapshot) :
    calculate_diff_text o n true = calculate_diff_text o n false := by
  cases o <;> cases n <;> simp [calculate_diff_text]

/-- C10: whenever either snapshot is absent, the comparator returns the
"no data" dash placeholder, whatever the other argument holds. -/
theorem missing_snapshot_returns_dash (o n : Option Snapshot) (b : Bool)
    (h : o = none ∨ n = none) :
    calculate_diff_text o n b = some "-" := by
  rcases h with rfl | rfl
  · cases n <;> rfl
  · cases o <;> rfl

/-- Witness for C10's theorem at a concrete input. -/
theorem missing_snapshot_returns_dash_witness :
    calculate_diff_text none (some ⟨"GOLD", "IV", 21, some 10, some 5⟩) true =
      some "-" :=
  missing_snapshot_returns_dash none _ true (Or.inl rfl)

end LOLRanks

